import Mathlib

/-!
Verification development for the QR attendance backend (`backend/server.py`).

The embedding models the persistent store (`jamaah`, `kajian`, `presensi`
collections) as lists of typed records, document insertion as appending to the
list, and `find_one` as `List.find?` (first document in insertion order).  The
ambient clock and the generated uuid / timestamp are passed explicitly in an
`Env` record.  A handler that can raise an unhandled exception is modelled as
returning `Option`, with `none` standing for the exception.
-/

/-- A calendar date, the result of `datetime.fromisoformat(s).date()`. -/
structure CalDate where
  year : Nat
  month : Nat
  day : Nat
deriving DecidableEq, Repr

def isLeapYear (y : Nat) : Bool :=
  (y % 4 == 0 && y % 100 != 0) || (y % 400 == 0)

def daysInMonth (y m : Nat) : Nat :=
  if m == 2 then (if isLeapYear y then 29 else 28)
  else if m == 4 || m == 6 || m == 9 || m == 11 then 30
  else 31

def digitVal (c : Char) : Option Nat :=
  if '0' ≤ c ∧ c ≤ '9' then some (c.toNat - 48) else none

/-- Parse the date-only ISO form `YYYY-MM-DD`, validating month and day ranges,
modelling Python's `datetime.fromisoformat(s).date()` on the date strings this
application stores; `none` models the `ValueError` raised on a malformed
string. -/
def parseISODate (s : String) : Option CalDate :=
  match s.toList with
  | [y1, y2, y3, y4, '-', m1, m2, '-', d1, d2] =>
    match digitVal y1, digitVal y2, digitVal y3, digitVal y4,
          digitVal m1, digitVal m2, digitVal d1, digitVal d2 with
    | some a, some b, some c, some d, some e, some f, some g, some h =>
      let y := ((a * 10 + b) * 10 + c) * 10 + d
      let m := e * 10 + f
      let dy := g * 10 + h
      if 1 ≤ m ∧ m ≤ 12 ∧ 1 ≤ dy ∧ dy ≤ daysInMonth y m then
        some ⟨y, m, dy⟩
      else none
    | _, _, _, _, _, _, _, _ => none
  | _ => none

/-- An attendee document (`Jamaah` model): `hp` is `Optional[str]` and the
`hp` key is always present in stored documents (inserted via `.dict()`). -/
structure Jamaah where
  id : String
  nama : String
  hp : Option String
deriving DecidableEq, Repr

structure JamaahCreate where
  nama : String
  hp : Option String
deriving DecidableEq, Repr

/-- A session document (`Kajian` model): `tanggal` is stored as a plain
string, `jam_mulai` / `jam_selesai` as `HH:MM` strings. -/
structure Kajian where
  id : String
  judul : String
  tanggal : String
  jam_mulai : String
  jam_selesai : String
deriving DecidableEq, Repr

structure KajianCreate where
  judul : String
  tanggal : String
  jam_mulai : String
  jam_selesai : String
deriving DecidableEq, Repr

/-- An attendance record document (`Presensi` model). -/
structure Presensi where
  id : String
  id_jamaah : String
  id_kajian : String
  waktu_presensi : String
deriving DecidableEq, Repr

structure PresensiCreate where
  id_jamaah : String
  id_kajian : String
deriving DecidableEq, Repr

/-- Response of the public check-in endpoint; `data` holds the
`{"jamaah": name, "kajian": title}` payload on success. -/
structure PresensiResponse where
  success : Bool
  message : String
  data : Option (String × String)
deriving DecidableEq, Repr

/-- The three collections the specified core operates over. -/
structure DBState where
  jamaah : List Jamaah
  kajian : List Kajian
  presensi : List Presensi
deriving DecidableEq, Repr

/-- Ambient request environment: current local date and hour
(`datetime.now()`), the UTC timestamp string and the generated uuid used for
a freshly created record. -/
structure Env where
  today : CalDate
  hour : Nat
  nowUtc : String
  freshId : String
deriving DecidableEq, Repr

def findJamaah (st : DBState) (jid : String) : Option Jamaah :=
  st.jamaah.find? (fun j => j.id == jid)

def findKajian (st : DBState) (kid : String) : Option Kajian :=
  st.kajian.find? (fun k => k.id == kid)

def findPresensiPair (st : DBState) (jid kid : String) : Option Presensi :=
  st.presensi.find? (fun p => p.id_jamaah == jid && p.id_kajian == kid)

def kajianNotFoundMsg : String := "Kajian tidak ditemukan"
def jamaahNotFoundMsg : String := "Jamaah tidak ditemukan"
def alreadyRecordedMsg : String := "⚠️ Anda sudah presensi untuk kajian ini."
def windowClosedMsg : String := "⏰ Waktu presensi sudah berakhir."
def successMsg : String := "✅ Presensi berhasil, semoga bermanfaat ilmunya."

/-- The `POST /api/presensi` handler (`create_presensi`).  Returns the
response together with the resulting store; `none` models the unhandled
`ValueError` raised by `datetime.fromisoformat` when the stored `tanggal`
string is not a parseable date. -/
def create_presensi (st : DBState) (env : Env) (req : PresensiCreate) :
    Option (PresensiResponse × DBState) :=
  match findKajian st req.id_kajian with
  | none => some (⟨false, kajianNotFoundMsg, none⟩, st)
  | some kajian =>
    match findJamaah st req.id_jamaah with
    | none => some (⟨false, jamaahNotFoundMsg, none⟩, st)
    | some jamaah =>
      if (findPresensiPair st req.id_jamaah req.id_kajian).isSome then
        some (⟨false, alreadyRecordedMsg, none⟩, st)
      else
        match parseISODate kajian.tanggal with
        | none => none
        | some kajianDate =>
          if kajianDate ≠ env.today then
            some (⟨false, windowClosedMsg, none⟩, st)
          else if ¬ (6 ≤ env.hour ∧ env.hour ≤ 23) then
            some (⟨false, windowClosedMsg, none⟩, st)
          else
            let p : Presensi := ⟨env.freshId, req.id_jamaah, req.id_kajian, env.nowUtc⟩
            some (⟨true, successMsg, some (jamaah.nama, kajian.judul)⟩,
                  { st with presensi := st.presensi ++ [p] })

instance {ε α : Type} [DecidableEq ε] [DecidableEq α] :
    DecidableEq (Except ε α) := fun a b =>
  match a, b with
  | .error e, .error e' =>
    if h : e = e' then .isTrue (by rw [h])
    else .isFalse (fun hc => h (by injection hc))
  | .error _, .ok _ => .isFalse (fun hc => Except.noConfusion hc)
  | .ok _, .error _ => .isFalse (fun hc => Except.noConfusion hc)
  | .ok v, .ok v' =>
    if h : v = v' then .isTrue (by rw [h])
    else .isFalse (fun hc => h (by injection hc))

/-- Truthiness of the `Optional[str]` field `hp` in Python:
`None` and the empty string are falsy. -/
def hpTruthy : Option String → Bool
  | none => false
  | some s => s ≠ ""

/-- The `POST /api/jamaah` handler (`create_jamaah`): when `hp` is truthy and
another stored attendee has the same `hp`, reject with 400 and leave the
store unchanged; otherwise insert the new attendee. -/
def create_jamaah (st : DBState) (freshId : String) (jc : JamaahCreate) :
    Except String Jamaah × DBState :=
  if hpTruthy jc.hp && (st.jamaah.find? (fun j => j.hp == jc.hp)).isSome then
    (.error "Phone number already exists", st)
  else
    let j : Jamaah := ⟨freshId, jc.nama, jc.hp⟩
    (.ok j, { st with jamaah := st.jamaah ++ [j] })

/-- Overwrite the first attendee whose id matches (Mongo `update_one` with a
`$set` of every field of the create model, keeping document position). -/
def updateFirstJamaah : List Jamaah → String → JamaahCreate → List Jamaah
  | [], _, _ => []
  | j :: rest, jid, ju =>
    if j.id == jid then { j with nama := ju.nama, hp := ju.hp } :: rest
    else j :: updateFirstJamaah rest jid ju

/-- The `PUT /api/jamaah/{id}` handler (`update_jamaah`): 404 when no attendee
has the id; otherwise overwrite `nama` and `hp` of the first match.  No
phone-uniqueness check is performed. -/
def update_jamaah (st : DBState) (jid : String) (ju : JamaahCreate) :
    Except String Jamaah × DBState :=
  match findJamaah st jid with
  | none => (.error "Jamaah not found", st)
  | some _ =>
    let st' : DBState := { st with jamaah := updateFirstJamaah st.jamaah jid ju }
    match findJamaah st' jid with
    | none => (.error "Jamaah not found", st')
    | some j => (.ok j, st')

/-- The `POST /api/kajian` handler (`create_kajian`): no validation of any
field; the date string is stored verbatim. -/
def create_kajian (st : DBState) (freshId : String) (kc : KajianCreate) :
    Kajian × DBState :=
  let k : Kajian := ⟨freshId, kc.judul, kc.tanggal, kc.jam_mulai, kc.jam_selesai⟩
  (k, { st with kajian := st.kajian ++ [k] })

/-- One detail row of the attendance report: the stored `hp` value is
returned as-is (the `hp` key is always present in stored documents, so the
`.get("hp", "")` default is never taken; the value may be the stored
`None`). -/
structure ReportRow where
  nama : String
  hp : Option String
  waktu_presensi : String
deriving DecidableEq, Repr

def mkReportRow (st : DBState) (p : Presensi) : Option ReportRow :=
  (findJamaah st p.id_jamaah).map (fun j => ⟨j.nama, j.hp, p.waktu_presensi⟩)

def presensiFor (st : DBState) (kid : String) : List Presensi :=
  st.presensi.filter (fun p => p.id_kajian == kid)

def reportRows (st : DBState) (kid : String) : List ReportRow :=
  (presensiFor st kid).filterMap (mkReportRow st)

/-- The `GET /api/laporan/{kajian_id}` handler (`get_attendance_report`):
404 (`none`) when the session does not exist; otherwise the session, the
count of assembled rows, and the rows themselves: one per attendance record
whose attendee still exists, in record retrieval order. -/
def get_attendance_report (st : DBState) (kid : String) :
    Option (Kajian × Nat × List ReportRow) :=
  match findKajian st kid with
  | none => none
  | some kajian => some (kajian, (reportRows st kid).length, reportRows st kid)

/-- Outcome of the CSV export handler: it never returns a byte stream. -/
inductive ExportResult where
  | notFound
  | typeError
deriving DecidableEq, Repr

/-- The `GET /api/laporan/{kajian_id}/export` handler
(`export_attendance_csv`): a handled 404 (`notFound`) when the session does
not exist.  For every existing session the handler writes the UTF-8
byte-order mark into a scratch `BytesIO` and then constructs
`csv.writer(output.getvalue().decode(...))`, passing a `str`; `csv.writer`
requires its first argument to have a `write` method and raises `TypeError`
at construction, an unhandled exception (`typeError`, surfaced as a 500).
No byte stream is ever returned, and the row-assembly, quoting and
`StreamingResponse` code after that line is unreachable. -/
def export_attendance_csv (st : DBState) (kid : String) : ExportResult :=
  match findKajian st kid with
  | none => ExportResult.notFound
  | some _ => ExportResult.typeError

/-- The five outcome kinds of the specification's Admission Gate. -/
inductive GateKind where
  | sessionNotFound
  | attendeeNotFound
  | alreadyRecorded
  | windowClosed
  | admitted
deriving DecidableEq, Repr

/-- The Admission Gate algorithm exactly as the specification words it:
five checks in the fixed order session existence, attendee existence,
duplicate record, date equality with the current local date, current local
hour within the band [6,23], short-circuiting on the first failure; on
success the confirmation payload carries the attendee's name and the
session's title.  Written from the specification, to be compared with
`create_presensi`. -/
def admissionGateSpec (st : DBState) (env : Env) (req : PresensiCreate) :
    GateKind × Option (String × String) :=
  match findKajian st req.id_kajian with
  | none => (.sessionNotFound, none)
  | some session =>
    match findJamaah st req.id_jamaah with
    | none => (.attendeeNotFound, none)
    | some attendee =>
      if (findPresensiPair st req.id_jamaah req.id_kajian).isSome then
        (.alreadyRecorded, none)
      else if parseISODate session.tanggal ≠ some env.today then
        (.windowClosed, none)
      else if ¬ (6 ≤ env.hour ∧ env.hour ≤ 23) then
        (.windowClosed, none)
      else
        (.admitted, some (attendee.nama, session.judul))

/-- Classify a concrete handler response by its rejection kind, through the
reason strings the handler emits. -/
def kindOf (r : PresensiResponse) : GateKind :=
  if r.success then .admitted
  else if r.message == kajianNotFoundMsg then .sessionNotFound
  else if r.message == jamaahNotFoundMsg then .attendeeNotFound
  else if r.message == alreadyRecordedMsg then .alreadyRecorded
  else .windowClosed

/-- The concrete message the handler emits for each outcome kind. -/
def gateMsg : GateKind → String
  | .sessionNotFound => kajianNotFoundMsg
  | .attendeeNotFound => jamaahNotFoundMsg
  | .alreadyRecorded => alreadyRecordedMsg
  | .windowClosed => windowClosedMsg
  | .admitted => successMsg

/-- Uniqueness of present phone numbers across the attendee collection
(the `Attendee.phone, when present, is unique` invariant): no attendee's
present `hp` value recurs later in the collection. -/
def phoneClash (a b : Jamaah) : Prop := a.hp.isSome = true ∧ a.hp = b.hp

instance (a b : Jamaah) : Decidable (phoneClash a b) :=
  inferInstanceAs (Decidable (a.hp.isSome = true ∧ a.hp = b.hp))

def phoneUnique (st : DBState) : Prop :=
  st.jamaah.Pairwise (fun a b => ¬ phoneClash a b)

instance (st : DBState) : Decidable (phoneUnique st) :=
  inferInstanceAs (Decidable (st.jamaah.Pairwise (fun a b => ¬ phoneClash a b)))

/- Concrete fixture data used by witnesses and counterexamples. -/

def jamaahBudi : Jamaah := ⟨"j1", "Budi", some "0812000111"⟩

def kajianToday : Kajian := ⟨"k1", "Kajian Subuh", "2025-01-15", "05:00", "06:00"⟩

def kajianYesterday : Kajian := ⟨"k2", "Kajian Lama", "2025-01-14", "05:00", "06:00"⟩

def kajianBadDate : Kajian := ⟨"k3", "Kajian Aneh", "besok sore", "05:00", "06:00"⟩

/-- Morning environment: local date 2025-01-15, local hour 10. -/
def envDay : Env := ⟨⟨2025, 1, 15⟩, 10, "2025-01-15T03:00:00+00:00", "p1"⟩

/-- Night environment: local date 2025-01-15, local hour 3. -/
def envNight : Env := ⟨⟨2025, 1, 15⟩, 3, "2025-01-14T20:00:00+00:00", "p9"⟩

/-- Store holding Budi and a session dated 2025-01-15, no attendance yet. -/
def stBudiToday : DBState := ⟨[jamaahBudi], [kajianToday], []⟩

/-- Store with one attendance record by a since-deleted attendee (`ghost`)
followed by one record by Budi, both for session `k1`. -/
def stGhost : DBState :=
  ⟨[jamaahBudi], [kajianToday],
   [⟨"p1", "ghost", "k1", "t1"⟩, ⟨"p2", "j1", "k1", "t2"⟩]⟩

example : parseISODate "2025-01-15" = some ⟨2025, 1, 15⟩ := by decide
example : parseISODate "2025-13-01" = none := by decide
example : parseISODate "besok sore" = none := by decide
example : parseISODate "2024-02-29" = some ⟨2024, 2, 29⟩ := by decide
example : parseISODate "2023-02-29" = none := by decide
example : phoneUnique stBudiToday := by decide

/- Helper lemmas. -/

theorem find?_append_of_none {α : Type} {l l₂ : List α} {p : α → Bool}
    (h : l.find? p = none) : (l ++ l₂).find? p = l₂.find? p := by
  induction l with
  | nil => simp
  | cons x xs ih =>
    rw [List.find?_cons] at h
    rw [List.cons_append, List.find?_cons]
    cases hx : p x with
    | true => simp [hx] at h
    | false =>
      simp only [hx] at h ⊢
      exact ih h

theorem filter_eq_nil_of_find?_none {α : Type} {l : List α} {p : α → Bool}
    (h : l.find? p = none) : l.filter p = [] := by
  rw [List.filter_eq_nil_iff]
  intro a ha
  rw [List.find?_eq_none] at h
  exact fun hpa => (h a ha) hpa

/-- C1: for every check-in request whose looked-up session (if any) carries a
parseable date, the handler `create_presensi` returns a response whose
outcome kind, confirmation payload and reason string are exactly those of the
specification's Admission Gate algorithm `admissionGateSpec`: checks in the
fixed order session existence, attendee existence, duplicate record, date
equality with the current local date, hour band, short-circuiting on the
first failure; on success the payload carries the attendee's name and the
session's title. -/
theorem C1_gate_matches_spec (st : DBState) (env : Env) (req : PresensiCreate)
    (hp : match findKajian st req.id_kajian with
          | none => True
          | some k => (parseISODate k.tanggal).isSome = true) :
    ∃ resp st', create_presensi st env req = some (resp, st') ∧
      (kindOf resp, resp.data) = admissionGateSpec st env req ∧
      resp.message = gateMsg (kindOf resp) := by
  unfold create_presensi admissionGateSpec
  cases hk : findKajian st req.id_kajian with
  | none =>
    simp only [hk]
    exact ⟨_, _, rfl, by decide, by decide⟩
  | some kajian =>
    simp only [hk] at hp ⊢
    cases ha : findJamaah st req.id_jamaah with
    | none =>
      simp only [ha]
      exact ⟨_, _, rfl, by decide, by decide⟩
    | some jamaah =>
      simp only [ha]
      cases hd : (findPresensiPair st req.id_jamaah req.id_kajian).isSome with
      | true =>
        simp only [hd, if_true]
        exact ⟨_, _, rfl, by decide, by decide⟩
      | false =>
        simp only [hd, Bool.false_eq_true, if_false]
        obtain ⟨d, hdate⟩ := Option.isSome_iff_exists.mp hp
        simp only [hdate]
        by_cases heq : d = env.today
        · subst heq
          simp only [ne_eq, not_true_eq_false, if_false, reduceCtorEq,
            not_false_eq_true, if_true]
          by_cases hh : 6 ≤ env.hour ∧ env.hour ≤ 23
          · simp only [hh, not_true_eq_false, if_false]
            exact ⟨_, _, rfl, by simp [kindOf, gateMsg], rfl⟩
          · simp only [hh, not_false_eq_true, if_true]
            exact ⟨_, _, rfl, by decide, by decide⟩
        · simp only [ne_eq, heq, not_false_eq_true, if_true,
            Option.some.injEq]
          exact ⟨_, _, rfl, by decide, by decide⟩

/-- Witness for C1 at a concrete store: Budi checking in to the same-day
session at hour 10. -/
theorem C1_gate_matches_spec_witness :
    ∃ resp st', create_presensi stBudiToday envDay ⟨"j1", "k1"⟩ = some (resp, st') ∧
      (kindOf resp, resp.data) = admissionGateSpec stBudiToday envDay ⟨"j1", "k1"⟩ ∧
      resp.message = gateMsg (kindOf resp) :=
  C1_gate_matches_spec stBudiToday envDay ⟨"j1", "k1"⟩ (by exact rfl)

/-- C2: for every existing session and attendee with no prior record for the
pair, on the session's date within the allowed hour band, a first check-in
succeeds with the confirmation payload and leaves exactly one attendance
record for the pair; a second check-in for the same pair (at any later
clock) yields the AlreadyRecorded rejection and leaves the store
unchanged. -/
theorem C2_once_then_duplicate (st : DBState) (env env' : Env) (aid kid : String)
    (K : Kajian) (A : Jamaah)
    (hK : findKajian st kid = some K)
    (hA : findJamaah st aid = some A)
    (hD : findPresensiPair st aid kid = none)
    (hdate : parseISODate K.tanggal = some env.today)
    (hh1 : 6 ≤ env.hour) (hh2 : env.hour ≤ 23) :
    ∃ st' : DBState,
      create_presensi st env ⟨aid, kid⟩ =
        some (⟨true, successMsg, some (A.nama, K.judul)⟩, st') ∧
      (st'.presensi.filter
        (fun p => p.id_jamaah == aid && p.id_kajian == kid)).length = 1 ∧
      create_presensi st' env' ⟨aid, kid⟩ =
        some (⟨false, alreadyRecordedMsg, none⟩, st') := by
  have hDfalse : (findPresensiPair st aid kid).isSome = false := by
    rw [hD]; rfl
  have hfilter : st.presensi.filter
      (fun p => p.id_jamaah == aid && p.id_kajian == kid) = [] :=
    filter_eq_nil_of_find?_none hD
  refine ⟨{ st with presensi :=
      st.presensi ++ [⟨env.freshId, aid, kid, env.nowUtc⟩] }, ?_, ?_, ?_⟩
  · unfold create_presensi
    simp only [hK, hA, hDfalse, Bool.false_eq_true, if_false, hdate,
      ne_eq, not_true_eq_false]
    have hh : (6 ≤ env.hour ∧ env.hour ≤ 23) := ⟨hh1, hh2⟩
    simp [hh]
  · simp only [List.filter_append, hfilter, List.nil_append]
    simp
  · unfold create_presensi
    have hK' : findKajian { st with presensi :=
        st.presensi ++ [⟨env.freshId, aid, kid, env.nowUtc⟩] } kid = some K := hK
    have hA' : findJamaah { st with presensi :=
        st.presensi ++ [⟨env.freshId, aid, kid, env.nowUtc⟩] } aid = some A := hA
    have hD' : st.presensi.find?
        (fun p => p.id_jamaah == aid && p.id_kajian == kid) = none := hD
    have hP' : findPresensiPair { st with presensi :=
        st.presensi ++ [⟨env.freshId, aid, kid, env.nowUtc⟩] } aid kid =
        some ⟨env.freshId, aid, kid, env.nowUtc⟩ := by
      show (st.presensi ++ [(⟨env.freshId, aid, kid, env.nowUtc⟩ : Presensi)]).find?
        (fun p => p.id_jamaah == aid && p.id_kajian == kid) =
        some (⟨env.freshId, aid, kid, env.nowUtc⟩ : Presensi)
      rw [find?_append_of_none hD']
      simp
    simp only [hK', hA', hP', Option.isSome_some, if_true]

/-- Witness for C2: Budi checks in to the same-day session at hour 10, then
again at hour 11. -/
theorem C2_once_then_duplicate_witness :
    ∃ st' : DBState,
      create_presensi stBudiToday envDay ⟨"j1", "k1"⟩ =
        some (⟨true, successMsg, some ("Budi", "Kajian Subuh")⟩, st') ∧
      (st'.presensi.filter
        (fun p => p.id_jamaah == "j1" && p.id_kajian == "k1")).length = 1 ∧
      create_presensi st' ⟨⟨2025, 1, 15⟩, 11, "t", "p2"⟩ ⟨"j1", "k1"⟩ =
        some (⟨false, alreadyRecordedMsg, none⟩, st') :=
  C2_once_then_duplicate stBudiToday envDay ⟨⟨2025, 1, 15⟩, 11, "t", "p2"⟩
    "j1" "k1" kajianToday jamaahBudi (by decide) (by decide) (by decide)
    (by decide) (by decide) (by decide)

/-- Counterexample to C3 as stated: the store holds a session (`k2`) whose
date 2025-01-14 differs from the current local date 2025-01-15, yet a
check-in naming a non-existent attendee yields the AttendeeNotFound
rejection, not WindowClosed — attendee existence is checked before the
date. -/
theorem C3_counterexample :
    create_presensi ⟨[], [kajianYesterday], []⟩ envDay ⟨"nobody", "k2"⟩ =
      some (⟨false, jamaahNotFoundMsg, none⟩, ⟨[], [kajianYesterday], []⟩) ∧
    jamaahNotFoundMsg ≠ windowClosedMsg := by decide

/-- C3 amended: for every session whose stored date parses to a calendar
date different from the current local date, a check-in by an existing
attendee with no prior record for the pair yields WindowClosed and leaves
the store unchanged. -/
theorem C3_amended (st : DBState) (env : Env) (aid kid : String)
    (K : Kajian) (A : Jamaah) (d : CalDate)
    (hK : findKajian st kid = some K)
    (hA : findJamaah st aid = some A)
    (hD : findPresensiPair st aid kid = none)
    (hparse : parseISODate K.tanggal = some d)
    (hne : d ≠ env.today) :
    create_presensi st env ⟨aid, kid⟩ =
      some (⟨false, windowClosedMsg, none⟩, st) := by
  unfold create_presensi
  have hDf : (findPresensiPair st aid kid).isSome = false := by rw [hD]; rfl
  simp only [hK, hA, hDf, Bool.false_eq_true, if_false, hparse]
  rw [if_pos hne]

/-- Witness for C3 amended: Budi attempting the session dated 2025-01-14 on
2025-01-15. -/
theorem C3_amended_witness :
    create_presensi ⟨[jamaahBudi], [kajianYesterday], []⟩ envDay ⟨"j1", "k2"⟩ =
      some (⟨false, windowClosedMsg, none⟩, ⟨[jamaahBudi], [kajianYesterday], []⟩) :=
  C3_amended ⟨[jamaahBudi], [kajianYesterday], []⟩ envDay "j1" "k2"
    kajianYesterday jamaahBudi ⟨2025, 1, 14⟩
    (by decide) (by decide) (by decide) (by decide) (by decide)

/-- Counterexample to C4 as stated: at local hour 3 (outside [6,23]) a
check-in naming a non-existent session yields the SessionNotFound
rejection — an outcome other than WindowClosed — so membership of the hour
in [6,23] is not necessary for a non-WindowClosed outcome. -/
theorem C4_counterexample :
    create_presensi ⟨[], [], []⟩ envNight ⟨"j1", "k1"⟩ =
      some (⟨false, kajianNotFoundMsg, none⟩, ⟨[], [], []⟩) ∧
    envNight.hour = 3 ∧ ¬ (6 ≤ envNight.hour ∧ envNight.hour ≤ 23) ∧
    kajianNotFoundMsg ≠ windowClosedMsg := by decide

/-- C4 amended: when the session exists with a date parsing to the current
local date, the attendee exists, no duplicate record exists, and the local
hour is a valid hour-of-day (< 24), the check-in is rejected WindowClosed
exactly when the hour lies in [0,5]; hence in that context h ∈ [6,23] is
necessary and sufficient for a non-WindowClosed (successful) outcome. -/
theorem C4_amended (st : DBState) (env : Env) (aid kid : String)
    (K : Kajian) (A : Jamaah)
    (hK : findKajian st kid = some K)
    (hA : findJamaah st aid = some A)
    (hD : findPresensiPair st aid kid = none)
    (hdate : parseISODate K.tanggal = some env.today)
    (hlt : env.hour < 24) :
    (create_presensi st env ⟨aid, kid⟩ =
        some (⟨false, windowClosedMsg, none⟩, st)) ↔ env.hour ≤ 5 := by
  unfold create_presensi
  have hDf : (findPresensiPair st aid kid).isSome = false := by rw [hD]; rfl
  simp only [hK, hA, hDf, Bool.false_eq_true, if_false, hdate]
  rw [if_neg (fun hcon => hcon rfl)]
  by_cases hh : 6 ≤ env.hour ∧ env.hour ≤ 23
  · rw [if_neg (not_not_intro hh)]
    constructor
    · intro hcontra
      simp at hcontra
    · intro h5
      exact absurd hh.1 (by omega)
  · rw [if_pos hh]
    constructor
    · intro _
      push_neg at hh
      have := hh
      omega
    · intro _
      rfl

/-- Witness for C4 amended: Budi attempting the same-day session at local
hour 3 is rejected WindowClosed. -/
theorem C4_amended_witness :
    create_presensi stBudiToday envNight ⟨"j1", "k1"⟩ =
      some (⟨false, windowClosedMsg, none⟩, stBudiToday) :=
  (C4_amended stBudiToday envNight "j1" "k1" kajianToday jamaahBudi
    (by decide) (by decide) (by decide) (by decide) (by decide)).mpr (by decide)

/-- C5: whenever the check-in handler returns, the resulting store is the
old store with exactly the one new attendance record appended if the
response is a success, and is the old store unchanged (all three
collections) if the response is a rejection of any kind. -/
theorem C5_writes_iff_success (st : DBState) (env : Env) (req : PresensiCreate)
    (resp : PresensiResponse) (st' : DBState)
    (h : create_presensi st env req = some (resp, st')) :
    if resp.success then
      st' = { st with presensi := st.presensi ++
        [⟨env.freshId, req.id_jamaah, req.id_kajian, env.nowUtc⟩] }
    else st' = st := by
  unfold create_presensi at h
  repeat' split at h
  any_goals exact Option.noConfusion h
  all_goals
    injection h with hpair
    injection hpair with h1 h2
    subst h1
    subst h2
    simp

/-- Witness for C5: Budi's successful same-day check-in appends exactly the
one new record. -/
theorem C5_writes_iff_success_witness :
    if (⟨true, successMsg, some ("Budi", "Kajian Subuh")⟩ : PresensiResponse).success then
      (⟨[jamaahBudi], [kajianToday],
        [⟨"p1", "j1", "k1", "2025-01-15T03:00:00+00:00"⟩]⟩ : DBState) =
        { stBudiToday with presensi := stBudiToday.presensi ++
          [⟨envDay.freshId, "j1", "k1", envDay.nowUtc⟩] }
    else (⟨[jamaahBudi], [kajianToday],
        [⟨"p1", "j1", "k1", "2025-01-15T03:00:00+00:00"⟩]⟩ : DBState) = stBudiToday :=
  C5_writes_iff_success stBudiToday envDay ⟨"j1", "k1"⟩
    ⟨true, successMsg, some ("Budi", "Kajian Subuh")⟩
    ⟨[jamaahBudi], [kajianToday], [⟨"p1", "j1", "k1", "2025-01-15T03:00:00+00:00"⟩]⟩
    (by decide)

theorem filterMap_eq_filterMap_filter_isSome {α β : Type} (f : α → Option β)
    (l : List α) :
    l.filterMap f = (l.filter (fun x => (f x).isSome)).filterMap f := by
  induction l with
  | nil => rfl
  | cons x xs ih =>
    cases hfx : f x with
    | none => simp [List.filterMap_cons, List.filter_cons, hfx, ih]
    | some b => simp [List.filterMap_cons, List.filter_cons, hfx, ih]

theorem length_filterMap_of_isSome {α β : Type} (f : α → Option β) (l : List α)
    (h : ∀ x ∈ l, (f x).isSome = true) : (l.filterMap f).length = l.length := by
  induction l with
  | nil => rfl
  | cons x xs ih =>
    obtain ⟨b, hb⟩ := Option.isSome_iff_exists.mp (h x (List.mem_cons_self x xs))
    simp [List.filterMap_cons, hb,
      ih (fun y hy => h y (List.mem_cons_of_mem _ hy))]

/-- C6: for every existing session, the report returns the session, a total
equal to the number of attendance records for the session whose referenced
attendee still exists, and a detail list holding exactly one
name/phone/timestamp row per such record, in record retrieval order. -/
theorem C6_report_counts_surviving (st : DBState) (kid : String) (kajian : Kajian)
    (hk : findKajian st kid = some kajian) :
    ∃ rows : List ReportRow,
      get_attendance_report st kid = some (kajian, rows.length, rows) ∧
      rows.length = ((presensiFor st kid).filter
        (fun p => (findJamaah st p.id_jamaah).isSome)).length ∧
      rows = ((presensiFor st kid).filter
        (fun p => (findJamaah st p.id_jamaah).isSome)).filterMap (mkReportRow st) := by
  have hpred : ∀ p ∈ presensiFor st kid,
      (mkReportRow st p).isSome = (findJamaah st p.id_jamaah).isSome := by
    intro p _
    unfold mkReportRow
    cases findJamaah st p.id_jamaah <;> rfl
  have h3 : reportRows st kid = ((presensiFor st kid).filter
      (fun p => (findJamaah st p.id_jamaah).isSome)).filterMap (mkReportRow st) := by
    unfold reportRows
    rw [filterMap_eq_filterMap_filter_isSome]
    congr 1
    exact List.filter_congr hpred
  have h2 : (reportRows st kid).length = ((presensiFor st kid).filter
      (fun p => (findJamaah st p.id_jamaah).isSome)).length := by
    rw [h3]
    apply length_filterMap_of_isSome
    intro x hx
    have hmem := List.mem_filter.mp hx
    rw [hpred x hmem.1]
    exact hmem.2
  refine ⟨reportRows st kid, ?_, h2, h3⟩
  unfold get_attendance_report
  simp only [hk]

/-- Witness for C6 at a concrete store: two records for session `k1`, one by
a deleted attendee and one by Budi; the report counts and lists only
Budi's. -/
theorem C6_report_counts_surviving_witness :
    ∃ rows : List ReportRow,
      get_attendance_report stGhost "k1" = some (kajianToday, rows.length, rows) ∧
      rows.length = ((presensiFor stGhost "k1").filter
        (fun p => (findJamaah stGhost p.id_jamaah).isSome)).length ∧
      rows = ((presensiFor stGhost "k1").filter
        (fun p => (findJamaah stGhost p.id_jamaah).isSome)).filterMap
          (mkReportRow stGhost) :=
  C6_report_counts_surviving stGhost "k1" kajianToday (by decide)

/-- C7: for every existing session the CSV export raises an unhandled
`TypeError` when `csv.writer` is constructed on a `str`, before any data row
is built — evaluated here at the store whose report for `k1` has one detail
row (Budi's), showing that no data rows are emitted at all while the
report's detail-row count is 1. -/
theorem C7_export_typeerror_no_rows :
    export_attendance_csv stGhost "k1" = ExportResult.typeError ∧
    get_attendance_report stGhost "k1" =
      some (kajianToday, 1, [⟨"Budi", some "0812000111", "t2"⟩]) := by decide

/-- C8: for the existing session `k1` the export handler crashes with the
unhandled `TypeError` — no byte stream is returned at all, so in particular
no stream beginning with a UTF-8 byte-order mark and a header line; the BOM
is only ever written to the scratch buffer the crash orphans. -/
theorem C8_export_no_stream :
    export_attendance_csv ⟨[], [kajianToday], []⟩ "k1" = ExportResult.typeError ∧
    export_attendance_csv ⟨[], [kajianToday], []⟩ "nope" = ExportResult.notFound := by
  decide

/-- Counterexample to C9 as stated: from a store satisfying the
phone-uniqueness invariant, updating Siti's phone to Budi's existing phone
succeeds — `update_jamaah` performs no phone check — and produces two
attendees with the same present phone. -/
theorem C9_counterexample :
    phoneUnique ⟨[⟨"j1", "Budi", some "0812000111"⟩,
      ⟨"j2", "Siti", some "0855111222"⟩], [], []⟩ ∧
    update_jamaah ⟨[⟨"j1", "Budi", some "0812000111"⟩,
      ⟨"j2", "Siti", some "0855111222"⟩], [], []⟩ "j2"
        ⟨"Siti", some "0812000111"⟩ =
      (.ok ⟨"j2", "Siti", some "0812000111"⟩,
        ⟨[⟨"j1", "Budi", some "0812000111"⟩,
          ⟨"j2", "Siti", some "0812000111"⟩], [], []⟩) ∧
    ¬ phoneUnique ⟨[⟨"j1", "Budi", some "0812000111"⟩,
      ⟨"j2", "Siti", some "0812000111"⟩], [], []⟩ := by decide

/-- C9 amended: creation with a nonempty phone equal to an existing
attendee's phone fails with Conflict and writes nothing; creation with no
phone never conflicts on phone and simply appends the new attendee; and any
creation that succeeds with either no phone or a truthy (nonempty) phone
preserves the phone-uniqueness invariant.  (Updates perform no phone check,
so the invariant is not preserved by every operation — see the
counterexample — and an empty-string phone bypasses the creation check.) -/
theorem C9_amended :
    (∀ (st : DBState) (fid : String) (jc : JamaahCreate) (p : String) (j : Jamaah),
      jc.hp = some p → p ≠ "" → j ∈ st.jamaah → j.hp = some p →
      create_jamaah st fid jc = (.error "Phone number already exists", st)) ∧
    (∀ (st : DBState) (fid : String) (jc : JamaahCreate), jc.hp = none →
      create_jamaah st fid jc =
        (.ok ⟨fid, jc.nama, none⟩,
         { st with jamaah := st.jamaah ++ [⟨fid, jc.nama, none⟩] })) ∧
    (∀ (st : DBState) (fid : String) (jc : JamaahCreate) (j' : Jamaah)
        (st' : DBState),
      phoneUnique st → (hpTruthy jc.hp = true ∨ jc.hp = none) →
      (create_jamaah st fid jc).1 = .ok j' → (create_jamaah st fid jc).2 = st' →
      phoneUnique st') := by
  refine ⟨?_, ?_, ?_⟩
  · intro st fid jc p j hjc hp hmem hjp
    have htr : hpTruthy jc.hp = true := by
      rw [hjc]
      simp [hpTruthy, hp]
    have hfind : (st.jamaah.find? (fun a => a.hp == jc.hp)).isSome = true := by
      rw [List.find?_isSome]
      exact ⟨j, hmem, by rw [hjp, hjc]; simp⟩
    unfold create_jamaah
    rw [if_pos (by simp [htr, hfind])]
  · intro st fid jc hnone
    have hf : hpTruthy jc.hp = false := by rw [hnone]; rfl
    unfold create_jamaah
    rw [if_neg (by rw [hf, Bool.false_and]; exact Bool.false_ne_true)]
    rw [hnone]
  · intro st fid jc j' st' hun hcase h1 h2
    unfold create_jamaah at h1 h2
    by_cases hcond : (hpTruthy jc.hp &&
        (st.jamaah.find? (fun a => a.hp == jc.hp)).isSome) = true
    · rw [if_pos hcond] at h1
      exact absurd h1 (by simp)
    · rw [if_neg hcond] at h2
      rw [← h2]
      show (st.jamaah ++ [(⟨fid, jc.nama, jc.hp⟩ : Jamaah)]).Pairwise _
      rw [List.pairwise_append]
      refine ⟨hun, List.pairwise_singleton _ _, ?_⟩
      intro a ha b hb
      simp only [List.mem_singleton] at hb
      subst hb
      intro hcl
      have hsome : a.hp.isSome = true := hcl.1
      have heq : a.hp = jc.hp := hcl.2
      rcases hcase with htr | hnone
      · rw [htr, Bool.true_and] at hcond
        have : ∃ x ∈ st.jamaah, (x.hp == jc.hp) = true :=
          ⟨a, ha, by rw [heq]; simp⟩
        exact hcond (List.find?_isSome.mpr this)
      · rw [hnone] at heq
        rw [heq] at hsome
        exact Bool.noConfusion hsome

/-- Witness for C9 amended: a conflicting creation rejected with the store
unchanged, a phoneless creation appended, and the invariant preserved. -/
theorem C9_amended_witness :
    create_jamaah ⟨[jamaahBudi], [], []⟩ "f1" ⟨"Siti", some "0812000111"⟩ =
      (.error "Phone number already exists", ⟨[jamaahBudi], [], []⟩) ∧
    create_jamaah ⟨[jamaahBudi], [], []⟩ "f2" ⟨"Andi", none⟩ =
      (.ok ⟨"f2", "Andi", none⟩,
       ⟨[jamaahBudi, ⟨"f2", "Andi", none⟩], [], []⟩) ∧
    phoneUnique ⟨[jamaahBudi, ⟨"f2", "Andi", none⟩], [], []⟩ :=
  ⟨C9_amended.1 ⟨[jamaahBudi], [], []⟩ "f1" ⟨"Siti", some "0812000111"⟩
      "0812000111" jamaahBudi rfl (by decide) (by decide) rfl,
   C9_amended.2.1 ⟨[jamaahBudi], [], []⟩ "f2" ⟨"Andi", none⟩ rfl,
   C9_amended.2.2 ⟨[jamaahBudi], [], []⟩ "f2" ⟨"Andi", none⟩
      ⟨"f2", "Andi", none⟩ ⟨[jamaahBudi, ⟨"f2", "Andi", none⟩], [], []⟩
      (by decide) (Or.inr rfl) (by decide) (by decide)⟩

/-- C10: session creation stores the submitted date string verbatim with no
validation, and a check-in against the stored session `k3` whose date string
`besok sore` is not ISO-parseable, by the existing attendee Budi with no
prior record, hits the unhandled date-parse exception (modelled `none`)
instead of returning any typed rejection payload. -/
theorem C10_unvalidated_date_crash :
    (∀ (st : DBState) (fid : String) (kc : KajianCreate),
      create_kajian st fid kc =
        (⟨fid, kc.judul, kc.tanggal, kc.jam_mulai, kc.jam_selesai⟩,
         { st with kajian := st.kajian ++
           [⟨fid, kc.judul, kc.tanggal, kc.jam_mulai, kc.jam_selesai⟩] })) ∧
    create_presensi ⟨[jamaahBudi], [kajianBadDate], []⟩ envDay ⟨"j1", "k3"⟩ = none :=
  ⟨fun st fid kc => rfl, by decide⟩
